import Mathlib

/-!
Verification of the eco-themed student details web app (single-file Flask
program, `src/index.py`) against its natural-language specification.

The embedding models the pure validation core (`clean_text`,
`validate_payload`, the three regexes) directly from the source, and the
three route handlers (`index`, `preview`, `submit`) as explicit functions on
a session state, with the nondeterministic parts of the environment (the
freshly minted token, whether the CSV append raises, the SMTP transport
outcome) passed in as oracle parameters.

Strings are Lean `String`s (lists of unicode code points), matching Python
level-3 `str` semantics for `len`, indexing and comparison. The Python
regexes are applied with `re.match` and a final `$`; in every call site the
argument has already been normalized (`clean_text` output, or a digit-only
string), so it never ends in a newline and the `$`-before-trailing-newline
subtlety of Python cannot fire; the embeddings below are therefore full
matches. The Python character classes `\d` and `\D` are modelled on the
full Unicode decimal-digit category Nd (the class CPython matches on `str`
patterns), while `\s` is modelled on its ASCII portion, the only portion
the whitespace-sensitive claims exercise.
-/

namespace EcoForm

/-- The apostrophe character, written via its code point. -/
def apos : Char := Char.ofNat 39

/-- ASCII portion of Python regex class `\s` (space, tab, LF, VT, FF, CR). -/
def isPySpace (c : Char) : Bool :=
  c = ' ' || c = Char.ofNat 9 || c = Char.ofNat 10 || c = Char.ofNat 11 ||
  c = Char.ofNat 12 || c = Char.ofNat 13

/-- Drop trailing characters satisfying `p` (helper for Python `str.strip`). -/
def dropTrailing (p : Char → Bool) (l : List Char) : List Char :=
  (l.reverse.dropWhile p).reverse

/-- Python `s.strip()`: remove leading and trailing whitespace. -/
def pyStrip (l : List Char) : List Char :=
  dropTrailing isPySpace (l.dropWhile isPySpace)

/-- Replace every maximal run of whitespace by a single space
(`re.sub(r"\s+", " ", -)`). The `prev` flag records whether the previous
character was part of a whitespace run already emitted as one space. -/
def squeezeAux (prev : Bool) : List Char → List Char
  | [] => []
  | c :: cs =>
    if isPySpace c then
      if prev then squeezeAux true cs
      else ' ' :: squeezeAux true cs
    else c :: squeezeAux false cs

/-- Model of `clean_text` (src/index.py line 209):
`re.sub(r"\s+", " ", (s or "").strip())`. -/
def clean_text (s : String) : String :=
  ⟨squeezeAux false (pyStrip s.data)⟩

/-- Python `form.get(k)` yields `None` for a missing key; `(s or "")` maps
`None` (and `""`) to `""`. -/
def orEmpty : Option String → String
  | none => ""
  | some s => s

/-- Python truthiness of an optional string: present and non-empty. -/
def truthy : Option String → Bool
  | none => false
  | some s => !(s = "")

/-- Code point ranges of the Unicode general category Nd (decimal digit),
Unicode 14.0.0, the class matched by Python regex `\d` on `str` patterns
(and whose complement is `\D`). CPython 3.11 ships this table. -/
def ndRanges : List (Nat × Nat) :=
  [(0x30, 0x39), (0x660, 0x669), (0x6F0, 0x6F9), (0x7C0, 0x7C9),
   (0x966, 0x96F), (0x9E6, 0x9EF), (0xA66, 0xA6F), (0xAE6, 0xAEF),
   (0xB66, 0xB6F), (0xBE6, 0xBEF), (0xC66, 0xC6F), (0xCE6, 0xCEF),
   (0xD66, 0xD6F), (0xDE6, 0xDEF), (0xE50, 0xE59), (0xED0, 0xED9),
   (0xF20, 0xF29), (0x1040, 0x1049), (0x1090, 0x1099), (0x17E0, 0x17E9),
   (0x1810, 0x1819), (0x1946, 0x194F), (0x19D0, 0x19D9), (0x1A80, 0x1A89),
   (0x1A90, 0x1A99), (0x1B50, 0x1B59), (0x1BB0, 0x1BB9), (0x1C40, 0x1C49),
   (0x1C50, 0x1C59), (0xA620, 0xA629), (0xA8D0, 0xA8D9), (0xA900, 0xA909),
   (0xA9D0, 0xA9D9), (0xA9F0, 0xA9F9), (0xAA50, 0xAA59), (0xABF0, 0xABF9),
   (0xFF10, 0xFF19), (0x104A0, 0x104A9), (0x10D30, 0x10D39),
   (0x11066, 0x1106F), (0x110F0, 0x110F9), (0x11136, 0x1113F),
   (0x111D0, 0x111D9), (0x112F0, 0x112F9), (0x11450, 0x11459),
   (0x114D0, 0x114D9), (0x11650, 0x11659), (0x116C0, 0x116C9),
   (0x11730, 0x11739), (0x118E0, 0x118E9), (0x11950, 0x11959),
   (0x11C50, 0x11C59), (0x11D50, 0x11D59), (0x11DA0, 0x11DA9),
   (0x16A60, 0x16A69), (0x16AC0, 0x16AC9), (0x16B50, 0x16B59),
   (0x1D7CE, 0x1D7FF), (0x1E140, 0x1E149), (0x1E2F0, 0x1E2F9),
   (0x1E950, 0x1E959), (0x1FBF0, 0x1FBF9)]

/-- Membership in Python regex class `\d` on `str`: any Unicode decimal
digit (category Nd), not only the ASCII digits `0`-`9`. -/
def isPyDigit (c : Char) : Bool :=
  ndRanges.any fun p => decide (p.1 ≤ c.toNat) && decide (c.toNat ≤ p.2)

/-- Model of `re.sub(r"\D", "", -)`: strip every character that is not a
Unicode decimal digit; in particular non-ASCII decimal digits are KEPT. -/
def stripNonDigits (s : String) : String :=
  ⟨s.data.filter isPyDigit⟩

/-- Character class of `NAME_REGEX` tail characters: letters, space, dot,
apostrophe, hyphen. -/
def isNameTail (c : Char) : Bool :=
  c.isAlpha || c = ' ' || c = '.' || c = apos || c = '-'

/-- Model of `NAME_REGEX` (src/index.py line 192): a letter followed by 1
to 49 tail-class characters, matched in full. -/
def nameOk (s : String) : Bool :=
  match s.data with
  | [] => false
  | c :: cs =>
    c.isAlpha && decide (1 ≤ cs.length) && decide (cs.length ≤ 49) &&
      cs.all isNameTail

/-- Model of `PHONE_REGEX` (src/index.py line 191): 10 to 15 digits,
matched in full. -/
def phoneOk (s : String) : Bool :=
  decide (10 ≤ s.length) && decide (s.length ≤ 15) && s.data.all Char.isDigit

/-- Character class `[^@\s]` of `EMAIL_REGEX`. -/
def isAddrChar (c : Char) : Bool :=
  !(c = '@') && !(isPySpace c)

/-- Model of `EMAIL_REGEX` (src/index.py line 190), the pattern local
part, at sign, domain, dot, tail with no whitespace and no second at sign.
A string matches exactly when it splits at its first `@` into a non-empty
run of `[^@\s]` characters, the `@`, and a remainder that again consists
only of `[^@\s]` characters and contains a literal dot at some position
that is neither its first nor its last character (the runs around that dot
are then the non-empty `[^@\s]+` groups; note `.` itself lies in `[^@\s]`). -/
def emailOk (s : String) : Bool :=
  let a := s.data.takeWhile (fun c => !(c = '@'))
  match s.data.dropWhile (fun c => !(c = '@')) with
  | [] => false
  | _ :: b =>
    decide (a ≠ []) && a.all isAddrChar && b.all isAddrChar &&
      ((b.drop 1).dropLast.contains '.')

/-- Model of `DEPARTMENTS` (src/index.py lines 194-196). -/
def DEPARTMENTS : List String :=
  ["BCA", "BSc CS", "BSc IT", "MCA", "MSc CS", "ECE", "EEE", "CSE", "AIML",
   "Data Science"]

/-- Raw request form data: the eight fields `validate_payload` reads via
`form.get`, each possibly absent. -/
structure Form where
  website : Option String
  name : Option String
  department : Option String
  email : Option String
  phone : Option String
  interest : Option String
  short_goal : Option String
  long_goal : Option String
deriving DecidableEq, Repr

/-- The validated, normalized record built at the end of `validate_payload`
(src/index.py lines 242-250). -/
structure SubmissionRecord where
  name : String
  department : String
  email : String
  phone : String
  interest : String
  short_goal : String
  long_goal : String
deriving DecidableEq, Repr

/-- The normalization `validate_payload` applies before its checks
(src/index.py lines 218-224): `clean_text` on every text field,
digit-stripping on the phone. -/
def normalized (f : Form) : SubmissionRecord :=
  { name := clean_text (orEmpty f.name)
    department := clean_text (orEmpty f.department)
    email := clean_text (orEmpty f.email)
    phone := stripNonDigits (orEmpty f.phone)
    interest := clean_text (orEmpty f.interest)
    short_goal := clean_text (orEmpty f.short_goal)
    long_goal := clean_text (orEmpty f.long_goal) }

/-- Model of `validate_payload` (src/index.py lines 213-251): honeypot check, then
normalization, then the field checks in source order, short-circuiting on
the first failure; on success the normalized record. -/
def validate_payload (f : Form) : Except String SubmissionRecord :=
  if truthy f.website then Except.error "Bot detected."
  else if !(nameOk (normalized f).name) then
    Except.error "Please enter a valid full name."
  else if !(DEPARTMENTS.contains (normalized f).department) then
    Except.error "Please select a valid department."
  else if !(emailOk (normalized f).email) then
    Except.error "Please enter a valid email address."
  else if !(phoneOk (normalized f).phone) then
    Except.error "Phone must be 10-15 digits."
  else if (normalized f).interest.length < 3 ∨ 300 < (normalized f).interest.length then
    Except.error "Area of interest must be between 3 and 300 characters."
  else if (normalized f).short_goal.length < 3 ∨ 600 < (normalized f).short_goal.length then
    Except.error "Short-term goal must be between 3 and 600 characters."
  else if (normalized f).long_goal.length < 3 ∨ 800 < (normalized f).long_goal.length then
    Except.error "Long-term goal must be between 3 and 800 characters."
  else Except.ok (normalized f)

/-- Spec-side reformulation: the list of all violated rules, in the fixed
order honeypot, name, department, email, phone, interest, short_goal,
long_goal stated in spec section 4.1, each with its message. -/
def violationList (f : Form) : List String :=
  (if truthy f.website then ["Bot detected."] else []) ++
  (if !(nameOk (normalized f).name) then
    ["Please enter a valid full name."] else []) ++
  (if !(DEPARTMENTS.contains (normalized f).department) then
    ["Please select a valid department."] else []) ++
  (if !(emailOk (normalized f).email) then
    ["Please enter a valid email address."] else []) ++
  (if !(phoneOk (normalized f).phone) then
    ["Phone must be 10-15 digits."] else []) ++
  (if (normalized f).interest.length < 3 ∨ 300 < (normalized f).interest.length then
    ["Area of interest must be between 3 and 300 characters."] else []) ++
  (if (normalized f).short_goal.length < 3 ∨ 600 < (normalized f).short_goal.length then
    ["Short-term goal must be between 3 and 600 characters."] else []) ++
  (if (normalized f).long_goal.length < 3 ∨ 800 < (normalized f).long_goal.length then
    ["Long-term goal must be between 3 and 800 characters."] else [])

/-! ## Session state and route handlers -/

/-- The raw field echo stored under the session key `form_data` when validation
fails at `/preview` (src/index.py lines 327-335): the seven raw values as
they came in, each possibly absent. In Python this is a dict with seven
keys, hence always truthy even when every value is `None`. -/
structure RawEcho where
  name : Option String
  department : Option String
  email : Option String
  phone : Option String
  interest : Option String
  short_goal : Option String
  long_goal : Option String
deriving DecidableEq, Repr

/-- Contents of the session key `form_data`: the raw echo of a failed
validation, or the validated record stored by a successful preview. -/
inductive Pending where
  | raw (e : RawEcho)
  | valid (r : SubmissionRecord)
deriving DecidableEq, Repr

/-- Per-browser session state: the session keys `csrf_token` and
`form_data` (absent keys modelled as `none`). -/
structure Sess where
  csrf : Option String
  form_data : Option Pending
deriving DecidableEq, Repr

/-- The responses the three handlers can produce, with the payloads the
claims are about. `redirectIndex` carries the flash message, if any;
`serverError` is the unhandled exception escaping `submit` when the CSV
append raises. -/
inductive Resp where
  | formPage (tok : String) (echoed : Option Pending)
  | redirectIndex (flash : Option String)
  | previewPage (tok : String) (r : SubmissionRecord)
  | successPage (tok : String)
  | serverError
deriving DecidableEq, Repr

/-- Model of `validate_csrf` (src/index.py lines 205-206): the Python
expression is the conjunction of token truthiness and exact equality with
the stored session token. A missing or empty
submitted token is falsy and short-circuits to rejection; otherwise the
stored value (possibly absent) must equal the submitted token exactly. -/
def validate_csrf (stored : Option String) (token : Option String) : Bool :=
  match token with
  | none => false
  | some t => !(t = "") && stored = some t

/-- The echo dict built on validation failure (src/index.py lines 327-335). -/
def echoOf (f : Form) : RawEcho :=
  ⟨f.name, f.department, f.email, f.phone, f.interest, f.short_goal,
   f.long_goal⟩

/-- Handler of `GET /` (src/index.py lines 303-315): mint a fresh token (the oracle
argument stands for `os.urandom(16).hex()`), render the form seeded with
any pending data. -/
def index (fresh : String) (s : Sess) : Resp × Sess :=
  (Resp.formPage fresh s.form_data, { s with csrf := some fresh })

/-- Handler of `POST /preview` (src/index.py lines 318-347): csrf check; on validation
failure store the raw echo and redirect with the reason; on success store
the validated record, mint a fresh token and render the preview. -/
def preview (token : Option String) (f : Form) (fresh : String) (s : Sess) :
    Resp × Sess :=
  if !(validate_csrf s.csrf token) then
    (Resp.redirectIndex (some "Invalid session. Please try again."), s)
  else
    match validate_payload f with
    | Except.error msg =>
      (Resp.redirectIndex (some msg),
       { s with form_data := some (Pending.raw (echoOf f)) })
    | Except.ok r =>
      (Resp.previewPage fresh r,
       { csrf := some fresh, form_data := some (Pending.valid r) })

/-- Mail configuration from the environment: `MAIL_USER` and `MAIL_PASS`
(absent or empty values are falsy in the guard of `send_email`). -/
structure MailCfg where
  mail_user : Option String
  mail_pass : Option String
deriving DecidableEq, Repr

/-- Model of `send_email` (src/index.py lines 254-286). The `transport` oracle is
the outcome of the SMTP conversation: `Except.error e` stands for any
exception raised inside the `try` block (auth failure, timeout, ...),
which the handler catches and converts to `false`. With credentials
missing the send is skipped and `false` returned. The record only feeds
the message body, so the result does not depend on it. The function is
total into `Bool`: no exception reaches the caller. -/
def send_email (cfg : MailCfg) (transport : Except String Unit)
    (_data : Pending) : Bool :=
  if !(truthy cfg.mail_user && truthy cfg.mail_pass) then false
  else
    match transport with
    | Except.ok _ => true
    | Except.error _ => false

/-- Everything observable about one `POST /submit` request: the response,
the final session, the row appended by `save_to_csv` (none when the append
was not reached or raised), the dict handed to `send_email` (none when not
reached) and its boolean result. -/
structure Outcome where
  resp : Resp
  sess : Sess
  saved : Option Pending
  mailed : Option Pending
  mail_sent : Option Bool
deriving DecidableEq, Repr

/-- Handler of `POST /submit` (src/index.py lines 350-381): csrf check, then the
`edit` action short-circuits to a redirect touching nothing; a missing
pending record is "session expired"; otherwise `save_to_csv` runs (the
`persistOk` oracle says whether the append raises — on `false` the
exception propagates: server error, nothing mailed, session untouched),
then `send_email` (result ignored), the pending record is popped, a fresh
token is minted and the success page rendered. -/
def submit (token : Option String) (action : Option String) (fresh : String)
    (persistOk : Bool) (cfg : MailCfg) (transport : Except String Unit)
    (s : Sess) : Outcome :=
  if !(validate_csrf s.csrf token) then
    ⟨Resp.redirectIndex (some "Invalid session. Please try again."), s,
     none, none, none⟩
  else if action = some "edit" then
    ⟨Resp.redirectIndex none, s, none, none, none⟩
  else
    match s.form_data with
    | none =>
      ⟨Resp.redirectIndex (some "Session expired. Please re-enter your details."),
       s, none, none, none⟩
    | some d =>
      if persistOk then
        ⟨Resp.successPage fresh, { csrf := some fresh, form_data := none },
         some d, some d, some (send_email cfg transport d)⟩
      else
        ⟨Resp.serverError, s, none, none, none⟩

end EcoForm

deriving instance DecidableEq for Except

namespace EcoForm

/-- A form fixture that passes every validation rule. -/
def goodForm : Form :=
  { website := none, name := some "John Doe", department := some "BCA",
    email := some "john@mail.com", phone := some "(123) 456-7890",
    interest := some "AI and ML", short_goal := some "Learn",
    long_goal := some "Build" }

/-- `goodForm` with a name that fails `NAME_REGEX` (starts with a digit). -/
def badForm : Form :=
  { goodForm with name := some "123John" }

/-- A concrete validated record fixture. -/
def rec0 : SubmissionRecord :=
  ⟨"John Doe", "BCA", "john@mail.com", "1234567890", "AI and ML", "Learn",
   "Build"⟩

/-- Mail configuration with both credentials present. -/
def cfg0 : MailCfg := ⟨some "user@gmail.com", some "apppass"⟩

/-- Mail configuration with `MAIL_USER` absent. -/
def cfgNoCreds : MailCfg := ⟨none, some "apppass"⟩

/-- The spec example name with an apostrophe: Ann O Brien-Lee, with the
apostrophe between O and Brien. -/
def sampleName : String :=
  String.mk ['A', 'n', 'n', ' ', 'O', apos, 'B', 'r', 'i', 'e', 'n', '-',
             'L', 'e', 'e']

/-- Ten Arabic-Indic digits, U+0660 to U+0669: Unicode decimal digits that
are not ASCII digits. -/
def arabicTen : String :=
  String.mk [Char.ofNat 0x660, Char.ofNat 0x661, Char.ofNat 0x662,
             Char.ofNat 0x663, Char.ofNat 0x664, Char.ofNat 0x665,
             Char.ofNat 0x666, Char.ofNat 0x667, Char.ofNat 0x668,
             Char.ofNat 0x669]

theorem str_length_eq_data (s : String) : s.length = s.data.length := rfl

/-- Claim C5: for every raw input mapping, `validate_payload` either returns
the fully normalized record (every text field whitespace-normalized, phone
reduced to digits) or the single human-readable reason of the first
violated rule in the fixed order honeypot, name, department, email, phone,
interest, short_goal, long_goal; never several errors at once, and the
result is a function of the input. -/
theorem validate_payload_first_violation (f : Form) :
    validate_payload f = (match violationList f with
      | [] => Except.ok (normalized f)
      | m :: _ => Except.error m) := by
  unfold validate_payload violationList
  split_ifs <;> rfl

/-- Claim C6: whenever the honeypot field `website` is non-empty,
`validate_payload` rejects with the bot-detection reason regardless of all
other field values; no other check influences the result. -/
theorem honeypot_rejects_all (f : Form) (h : truthy f.website = true) :
    validate_payload f = Except.error "Bot detected." := by
  simp [validate_payload, h]

theorem honeypot_rejects_all_witness :
    truthy (some "spam") = true ∧
    validate_payload { goodForm with website := some "spam" } =
      Except.error "Bot detected." :=
  ⟨by decide, honeypot_rejects_all { goodForm with website := some "spam" } (by decide)⟩

/-- Claim C7 counterexample: the phone field is NOT accepted exactly when
10 to 15 digits remain after stripping. Python strips `\D`, the complement
of all Unicode decimal digits, so a phone of ten Arabic-Indic digits
(U+0660 to U+0669) survives the strip unchanged: ten digits remain, yet
`PHONE_REGEX` accepts only ASCII `0`-`9` and rejects it, and the full
validator reports the phone error on an otherwise valid form. -/
theorem phone_rules_cex :
    stripNonDigits arabicTen = arabicTen ∧
    arabicTen.length = 10 ∧
    arabicTen.data.all isPyDigit = true ∧
    phoneOk (stripNonDigits arabicTen) = false ∧
    validate_payload { goodForm with phone := some arabicTen } =
      Except.error "Phone must be 10-15 digits." := by
  refine ⟨by decide, by decide, by decide, by decide, by decide⟩

/-- Auxiliary: a Unicode decimal digit in the ASCII plane is one of the
ASCII digits `0`-`9` (the only Nd range below 128 is 0x30-0x39). -/
theorem isDigit_of_pyDigit_ascii (c : Char) (h : isPyDigit c = true)
    (ha : c.toNat ≤ 127) : c.isDigit = true := by
  have hn : 48 ≤ c.toNat ∧ c.toNat ≤ 57 := by
    simp only [isPyDigit, ndRanges, List.any_cons, List.any_nil,
      Bool.or_eq_true, Bool.and_eq_true, decide_eq_true_eq,
    Bool.false_eq_true, or_false] at h
    omega
  simp only [Char.isDigit, ge_iff_le, Bool.and_eq_true, decide_eq_true_eq,
    UInt32.le_def, BitVec.le_def]
  exact ⟨hn.1, hn.2⟩

/-- Claim C7 amended: stripping the characters Python treats as non-digits
is the identity on any string of (Unicode decimal) digits; after
stripping, the phone is accepted exactly when 10 to 15 characters remain
AND every one of them is an ASCII digit `0`-`9` — the strip keeps every
Unicode decimal digit while `PHONE_REGEX` accepts only ASCII digits, so
for inputs made of ASCII characters the original reading (accepted iff 10
to 15 digits remain) is recovered; the spec examples hold: the formatted
US number normalizes to `1234567890` and is accepted, the five-digit
string is rejected. -/
theorem phone_rules_amended (s t : String)
    (hs : s.data.all isPyDigit = true) :
    stripNonDigits s = s ∧
    (phoneOk (stripNonDigits t) = true ↔
      10 ≤ (stripNonDigits t).length ∧ (stripNonDigits t).length ≤ 15 ∧
        (stripNonDigits t).data.all Char.isDigit = true) ∧
    (t.data.all (fun c => decide (c.toNat ≤ 127)) = true →
      (phoneOk (stripNonDigits t) = true ↔
        10 ≤ (stripNonDigits t).length ∧ (stripNonDigits t).length ≤ 15)) ∧
    stripNonDigits "(123) 456-7890" = "1234567890" ∧
    phoneOk "1234567890" = true ∧
    phoneOk (stripNonDigits "12345") = false := by
  refine ⟨?_, ?_, ?_, by decide, by decide, by decide⟩
  · have h1 : s.data.filter isPyDigit = s.data :=
      List.filter_eq_self.mpr fun a ha => List.all_eq_true.mp hs a ha
    show (⟨s.data.filter isPyDigit⟩ : String) = s
    rw [h1]
  · simp [phoneOk, Bool.and_eq_true, decide_eq_true_eq, and_assoc]
  · intro hascii
    have hall : (stripNonDigits t).data.all Char.isDigit = true := by
      refine List.all_eq_true.mpr fun a ha => ?_
      have hmem := List.mem_filter.mp ha
      exact isDigit_of_pyDigit_ascii a hmem.2
        (by simpa using List.all_eq_true.mp hascii a hmem.1)
    simp [phoneOk, Bool.and_eq_true, decide_eq_true_eq, and_assoc, hall]

theorem phone_rules_amended_witness :
    stripNonDigits "123" = "123" ∧
    (phoneOk (stripNonDigits "(123) 456-7890") = true ↔
      10 ≤ (stripNonDigits "(123) 456-7890").length ∧
        (stripNonDigits "(123) 456-7890").length ≤ 15 ∧
        (stripNonDigits "(123) 456-7890").data.all Char.isDigit = true) ∧
    ("(123) 456-7890".data.all (fun c => decide (c.toNat ≤ 127)) = true →
      (phoneOk (stripNonDigits "(123) 456-7890") = true ↔
        10 ≤ (stripNonDigits "(123) 456-7890").length ∧
          (stripNonDigits "(123) 456-7890").length ≤ 15)) ∧
    stripNonDigits "(123) 456-7890" = "1234567890" ∧
    phoneOk "1234567890" = true ∧
    phoneOk (stripNonDigits "12345") = false :=
  phone_rules_amended "123" "(123) 456-7890" (by decide)

/-- Claim C8: `NAME_REGEX` accepts exactly the strings of total length 2 to
50 that start with a letter and continue with letters, space, dot,
apostrophe or hyphen; the single letter name is rejected, the sample name
with apostrophe and hyphen is accepted, and a name starting with a digit is
rejected. -/
theorem name_rule (s : String) :
    (nameOk s = true ↔
      2 ≤ s.length ∧ s.length ≤ 50 ∧
        ∃ c cs, s.data = c :: cs ∧ c.isAlpha = true ∧ cs.all isNameTail = true) ∧
    nameOk "A" = false ∧ nameOk sampleName = true ∧ nameOk "123John" = false := by
  refine ⟨?_, by decide, by decide, by decide⟩
  rw [str_length_eq_data]
  cases h : s.data with
  | nil => simp [nameOk, h]
  | cons c cs =>
    simp only [nameOk, h, List.length_cons, Bool.and_eq_true, decide_eq_true_eq]
    constructor
    · rintro ⟨⟨⟨ha, h1⟩, h49⟩, ht⟩
      exact ⟨by omega, by omega, c, cs, rfl, ha, ht⟩
    · rintro ⟨h2, h50, c', cs', hd, ha, ht⟩
      injection hd with hc hcs
      subst hc; subst hcs
      exact ⟨⟨⟨ha, by omega⟩, by omega⟩, ht⟩


/-- Claim C1 exhibit (code bug): the pending record finalized by a confirm
action with a matching csrf token need NOT come from a successful
validation. After a `POST /preview` whose payload fails validation, the
raw echo is stored under the same session key `form_data` and the session
token is not replaced; a following `POST /submit` confirm with that same
token passes the csrf check and hands the unvalidated echo to both the
persistence and the notification sink, rendering the success page, even
though `validate_payload` rejects that very payload. -/
theorem unvalidated_echo_finalized :
    preview (some "t1") badForm "t2" ⟨some "t1", none⟩ =
      (Resp.redirectIndex (some "Please enter a valid full name."),
       ⟨some "t1", some (Pending.raw (echoOf badForm))⟩) ∧
    (submit (some "t1") (some "confirm") "t3" true cfg0 (Except.ok ())
        ⟨some "t1", some (Pending.raw (echoOf badForm))⟩).saved =
      some (Pending.raw (echoOf badForm)) ∧
    (submit (some "t1") (some "confirm") "t3" true cfg0 (Except.ok ())
        ⟨some "t1", some (Pending.raw (echoOf badForm))⟩).mailed =
      some (Pending.raw (echoOf badForm)) ∧
    (submit (some "t1") (some "confirm") "t3" true cfg0 (Except.ok ())
        ⟨some "t1", some (Pending.raw (echoOf badForm))⟩).resp =
      Resp.successPage "t3" ∧
    validate_payload badForm = Except.error "Please enter a valid full name." := by
  refine ⟨by decide, by decide, by decide, by decide, by decide⟩

/-- Claim C2 counterexample: a csrf token is NOT single-use as claimed.
With the stored token `tk`, a `POST /submit` edit action presenting `tk`
is accepted (a state-changing request), and on the resulting session a
second `POST /submit` confirm presenting the same `tk` is accepted as
well, because the edit path replaces no token. -/
theorem csrf_token_double_use :
    submit (some "tk") (some "edit") "t2" true cfg0 (Except.ok ())
        ⟨some "tk", some (Pending.valid rec0)⟩ =
      ⟨Resp.redirectIndex none, ⟨some "tk", some (Pending.valid rec0)⟩,
       none, none, none⟩ ∧
    (submit (some "tk") (some "confirm") "t3" true cfg0 (Except.ok ())
        (submit (some "tk") (some "edit") "t2" true cfg0 (Except.ok ())
          ⟨some "tk", some (Pending.valid rec0)⟩).sess).resp =
      Resp.successPage "t3" ∧
    validate_csrf (some "tk") (some "tk") = true := by
  refine ⟨by decide, by decide, by decide⟩

/-- Claim C2 amended: a state-changing request succeeds only when it
presents exactly the token currently stored for the session; every render
(index, successful preview, finalize) mints a fresh token that replaces
the stored one, after which any older token (for instance the one from
render N-2) is rejected; but a token is replaced only by minting, not by
use: the edit action and a validation-failing preview leave the stored
token in place, so the same token may validate further state-changing
requests until the next render. -/
theorem csrf_token_lifecycle (stored token : Option String) (s : Sess)
    (f : Form) (r : SubmissionRecord) (d : Pending) (cfg : MailCfg)
    (tr : Except String Unit) (fresh old : String) (hne : old ≠ fresh) :
    (validate_csrf stored token = true ↔
      ∃ t, token = some t ∧ t ≠ "" ∧ stored = some t) ∧
    ((index fresh s).2.csrf = some fresh) ∧
    (validate_csrf ((index fresh s).2).csrf (some old) = false) ∧
    (validate_payload f = Except.ok r → validate_csrf s.csrf token = true →
      (preview token f fresh s).2.csrf = some fresh) ∧
    (validate_csrf s.csrf token = true → s.form_data = some d →
      (submit token (some "confirm") fresh true cfg tr s).sess.csrf = some fresh) ∧
    ((submit token (some "edit") fresh true cfg tr s).sess.csrf = s.csrf) ∧
    (∀ msg, validate_payload f = Except.error msg →
      (preview token f fresh s).2.csrf = s.csrf) := by
  refine ⟨?_, rfl, ?_, ?_, ?_, ?_, ?_⟩
  · cases token with
    | none => simp [validate_csrf]
    | some t =>
      simp only [validate_csrf, Bool.and_eq_true, Bool.not_eq_true',
        decide_eq_false_iff_not, decide_eq_true_eq]
      constructor
      · rintro ⟨h1, h2⟩
        exact ⟨t, rfl, h1, h2⟩
      · rintro ⟨t', ht, h1, h2⟩
        injection ht with h
        subst h
        exact ⟨h1, h2⟩
  · simp [validate_csrf, index]
    intro _ hfo
    exact hne hfo.symm
  · intro hok hc
    simp [preview, hc, hok]
  · intro hc hd
    simp [submit, hc, hd]
  · by_cases hc : validate_csrf s.csrf token = true
    · simp [submit, hc]
    · simp [submit, hc]
  · intro msg herr
    by_cases hc : validate_csrf s.csrf token = true
    · simp [preview, hc, herr]
    · simp [preview, hc]

theorem csrf_token_lifecycle_witness :
    ("oldtk" : String) ≠ "newtk" ∧
    validate_csrf ((index "newtk" ⟨some "oldtk", none⟩).2).csrf
      (some "oldtk") = false :=
  ⟨by decide,
   (csrf_token_lifecycle (some "a") (some "a") ⟨some "oldtk", none⟩ goodForm
     rec0 (Pending.valid rec0) cfg0 (Except.ok ()) "newtk" "oldtk"
     (by decide)).2.2.1⟩

/-- Claim C3: the notification step never surfaces a failure. With
credentials missing or with the transport raising, `send_email` returns
`false` (the Python handler catches every transport exception; the model
is total into `Bool`), and the confirm flow clears the pending record and
renders the success view for every mail configuration and every transport
outcome, merely recording the boolean result. -/
theorem notification_failure_tolerated (cfg : MailCfg)
    (tr : Except String Unit) (d : Pending) (s : Sess)
    (token : Option String) (fresh : String)
    (hc : validate_csrf s.csrf token = true) (hd : s.form_data = some d) :
    (truthy cfg.mail_user = false ∨ truthy cfg.mail_pass = false →
      send_email cfg tr d = false) ∧
    (∀ e, tr = Except.error e → send_email cfg tr d = false) ∧
    (submit token (some "confirm") fresh true cfg tr s).resp =
      Resp.successPage fresh ∧
    (submit token (some "confirm") fresh true cfg tr s).sess.form_data =
      none ∧
    (submit token (some "confirm") fresh true cfg tr s).mail_sent =
      some (send_email cfg tr d) := by
  refine ⟨?_, ?_, ?_, ?_, ?_⟩
  · rintro (h | h) <;> simp [send_email, h]
  · rintro e rfl
    simp [send_email]
  · simp [submit, hc, hd]
  · simp [submit, hc, hd]
  · simp [submit, hc, hd]

theorem notification_failure_tolerated_witness :
    send_email cfgNoCreds (Except.error "timeout") (Pending.valid rec0) = false ∧
    (submit (some "tk") (some "confirm") "t9" true cfgNoCreds
        (Except.error "timeout")
        ⟨some "tk", some (Pending.valid rec0)⟩).resp =
      Resp.successPage "t9" ∧
    (submit (some "tk") (some "confirm") "t9" true cfgNoCreds
        (Except.error "timeout")
        ⟨some "tk", some (Pending.valid rec0)⟩).sess.form_data = none :=
  ⟨(notification_failure_tolerated cfgNoCreds (Except.error "timeout")
      (Pending.valid rec0) ⟨some "tk", some (Pending.valid rec0)⟩
      (some "tk") "t9" (by decide) rfl).1 (Or.inl (by decide)),
   (notification_failure_tolerated cfgNoCreds (Except.error "timeout")
      (Pending.valid rec0) ⟨some "tk", some (Pending.valid rec0)⟩
      (some "tk") "t9" (by decide) rfl).2.2.1,
   (notification_failure_tolerated cfgNoCreds (Except.error "timeout")
      (Pending.valid rec0) ⟨some "tk", some (Pending.valid rec0)⟩
      (some "tk") "t9" (by decide) rfl).2.2.2.1⟩

/-- Claim C4: a persistence failure is fatal and atomic. When the CSV
append raises during a confirm request, the exception escapes the handler
as a server error, no notification is attempted, the session (pending
record included) is unchanged, and no success page is rendered. -/
theorem persistence_failure_fatal (s : Sess) (token action : Option String)
    (d : Pending) (cfg : MailCfg) (tr : Except String Unit) (fresh : String)
    (hc : validate_csrf s.csrf token = true) (ha : action ≠ some "edit")
    (hd : s.form_data = some d) :
    submit token action fresh false cfg tr s =
      ⟨Resp.serverError, s, none, none, none⟩ ∧
    (submit token action fresh false cfg tr s).sess.form_data = some d ∧
    ∀ t, (submit token action fresh false cfg tr s).resp ≠
      Resp.successPage t := by
  have h1 : submit token action fresh false cfg tr s =
      ⟨Resp.serverError, s, none, none, none⟩ := by
    simp [submit, hc, ha, hd]
  refine ⟨h1, ?_, ?_⟩
  · rw [h1]; exact hd
  · intro t
    rw [h1]
    simp

theorem persistence_failure_fatal_witness :
    (submit (some "tk") (some "confirm") "t9" false cfg0 (Except.ok ())
        ⟨some "tk", some (Pending.valid rec0)⟩) =
      ⟨Resp.serverError, ⟨some "tk", some (Pending.valid rec0)⟩,
       none, none, none⟩ ∧
    (submit (some "tk") (some "confirm") "t9" false cfg0 (Except.ok ())
        ⟨some "tk", some (Pending.valid rec0)⟩).sess.form_data =
      some (Pending.valid rec0) :=
  ⟨(persistence_failure_fatal ⟨some "tk", some (Pending.valid rec0)⟩
      (some "tk") (some "confirm") (Pending.valid rec0) cfg0 (Except.ok ())
      "t9" (by decide) (by decide) rfl).1,
   (persistence_failure_fatal ⟨some "tk", some (Pending.valid rec0)⟩
      (some "tk") (some "confirm") (Pending.valid rec0) cfg0 (Except.ok ())
      "t9" (by decide) (by decide) rfl).2.1⟩

/-- Claim C9: the edit action changes no session data. With a matching
csrf token and a validated pending record, the edit branch of
`POST /submit` redirects to the collection view with no flash, leaves the
whole session (pending record included) untouched, and a subsequent form
render re-displays that pending record. -/
theorem edit_preserves_session (s : Sess) (token : Option String)
    (r : SubmissionRecord) (cfg : MailCfg) (tr : Except String Unit)
    (fresh next : String) (persistOk : Bool)
    (hc : validate_csrf s.csrf token = true)
    (hd : s.form_data = some (Pending.valid r)) :
    submit token (some "edit") fresh persistOk cfg tr s =
      ⟨Resp.redirectIndex none, s, none, none, none⟩ ∧
    (submit token (some "edit") fresh persistOk cfg tr s).sess.form_data =
      some (Pending.valid r) ∧
    (index next (submit token (some "edit") fresh persistOk cfg tr s).sess).1 =
      Resp.formPage next (some (Pending.valid r)) := by
  have h1 : submit token (some "edit") fresh persistOk cfg tr s =
      ⟨Resp.redirectIndex none, s, none, none, none⟩ := by
    simp [submit, hc]
  refine ⟨h1, ?_, ?_⟩
  · rw [h1]; exact hd
  · rw [h1]
    simp [index, hd]

theorem edit_preserves_session_witness :
    submit (some "tk") (some "edit") "t9" true cfg0 (Except.ok ())
        ⟨some "tk", some (Pending.valid rec0)⟩ =
      ⟨Resp.redirectIndex none, ⟨some "tk", some (Pending.valid rec0)⟩,
       none, none, none⟩ ∧
    (index "t10" (submit (some "tk") (some "edit") "t9" true cfg0
        (Except.ok ()) ⟨some "tk", some (Pending.valid rec0)⟩).sess).1 =
      Resp.formPage "t10" (some (Pending.valid rec0)) :=
  ⟨(edit_preserves_session ⟨some "tk", some (Pending.valid rec0)⟩
      (some "tk") rec0 cfg0 (Except.ok ()) "t9" "t10" true (by decide)
      rfl).1,
   (edit_preserves_session ⟨some "tk", some (Pending.valid rec0)⟩
      (some "tk") rec0 cfg0 (Except.ok ()) "t9" "t10" true (by decide)
      rfl).2.2⟩

/-- Claim C10: a state-changing request presenting a missing or empty csrf
token is always rejected onto the invalid-session path, for every session
state, including a fresh session storing no token: an absent submitted
token is never matched against an absent stored token. -/
theorem blank_csrf_rejected (s : Sess) (token : Option String) (f : Form)
    (action : Option String) (cfg : MailCfg) (tr : Except String Unit)
    (fresh : String) (persistOk : Bool)
    (h : token = none ∨ token = some "") :
    validate_csrf s.csrf token = false ∧
    preview token f fresh s =
      (Resp.redirectIndex (some "Invalid session. Please try again."), s) ∧
    submit token action fresh persistOk cfg tr s =
      ⟨Resp.redirectIndex (some "Invalid session. Please try again."), s,
       none, none, none⟩ := by
  rcases h with rfl | rfl <;>
    exact ⟨by simp [validate_csrf], by simp [preview, validate_csrf],
           by simp [submit, validate_csrf]⟩

theorem blank_csrf_rejected_witness :
    validate_csrf (none : Option String) (none : Option String) = false ∧
    preview none goodForm "t1" ⟨none, none⟩ =
      (Resp.redirectIndex (some "Invalid session. Please try again."),
       ⟨none, none⟩) ∧
    submit none (some "confirm") "t1" true cfg0 (Except.ok ())
        ⟨none, none⟩ =
      ⟨Resp.redirectIndex (some "Invalid session. Please try again."),
       ⟨none, none⟩, none, none, none⟩ :=
  blank_csrf_rejected ⟨none, none⟩ none goodForm (some "confirm") cfg0
    (Except.ok ()) "t1" true (Or.inl rfl)

end EcoForm
